import Mathlib

/-!
Verification of the `flow-like-water` task-orchestration engine
(`src/index.ts`).

The TypeScript source is shallowly embedded: every `async` method becomes a
pure state-passing function, promise rejection becomes `Except.error`, and
`Promise<string | void>` becomes `Except JsError (Option String)` (`none`
models resolving with `undefined`).  The caller-supplied `execute` /
`checkCondition` closures are modelled as oracles indexed by invocation
count, and each task carries instrumentation counters (`execCalls`,
`condCalls`) counting how often each closure has been invoked, so that
"`execute` is invoked exactly k times" is a statement about the embedding.

Elapsed wall-clock time (`Date.now()` differences) is modelled by a
per-attempt duration oracle `execDur : Nat → Nat`; `wait(ms)` suspensions
and the `EventEmitter` lifecycle notifications (`taskStarted`,
`taskComplete`, `success`) have no effect on any state the claims mention
and are elided from the embedding (listeners are assumed not to throw).
-/

namespace FlowLikeWater

/-- TaskState from src/index.ts lines 4-9. -/
inductive TaskState where
  | not_started
  | completed
  | in_progress
  | failed
  | skipped
deriving DecidableEq, Repr

/-- Model of a JavaScript error value.  `message` is the `Error` message;
`tag` distinguishes distinct error values that happen to share a message. -/
structure JsError where
  message : String
  tag : Nat
deriving DecidableEq, Repr

/-- Error thrown by `runTask` when the post-execution condition resolves
false: `throw new Error("Condition not met")` (src/index.ts line 112). -/
def conditionNotMetError : JsError :=
  { message := "Condition not met", tag := 0 }

/-- Outcome of one call to a task's `execute` closure: the promise either
rejects with an error, or resolves with `undefined` (`none`) or with a
branch-target id (`some id`). -/
inductive ExecOutcome where
  | reject (e : JsError)
  | resolve (branch : Option String)

/-- Outcome of one call to a task's `checkCondition` closure: the promise
either rejects or resolves with a boolean. -/
inductive CondOutcome where
  | reject (e : JsError)
  | resolve (b : Bool)

/-- Task from src/index.ts lines 55-81.  `execBeh k` / `condBeh k` give the
outcome of the k-th (0-indexed) invocation of `execute` / `checkCondition`;
`execDur k` gives the `Date.now()` elapsed duration recorded if the k-th
attempt completes.  `execCalls` / `condCalls` instrument how many times each
closure has been invoked so far. -/
structure Task where
  id : String
  execBeh : Nat → ExecOutcome
  condBeh : Nat → CondOutcome
  execDur : Nat → Nat
  retries : Nat
  waitTime : Nat
  nextTasks : Option (List String)
  state : TaskState
  time : Nat
  execCalls : Nat
  condCalls : Nat

/-- Options object accepted by the Task constructor (src/index.ts lines
65-72).  `none` models an omitted (`undefined`) optional field. -/
structure TaskOptions where
  id : String
  execBeh : Nat → ExecOutcome
  condBeh : Nat → CondOutcome
  execDur : Nat → Nat
  nextTasks : Option (List String)
  retries : Option Nat
  waitTime : Option Nat

/-- JavaScript `x || dflt` on an optional number field: `undefined` and the
falsy number `0` both yield the default. -/
def jsOrDefault (x : Option Nat) (dflt : Nat) : Nat :=
  match x with
  | some v => if v = 0 then dflt else v
  | none => dflt

/-- The Task constructor (src/index.ts lines 65-81):
`this.retries = options.retries || 0; this.waitTime = options.waitTime || 1000;`
state starts as `not_started`, time as 0. -/
def Task.new (o : TaskOptions) : Task :=
  { id := o.id
    execBeh := o.execBeh
    condBeh := o.condBeh
    execDur := o.execDur
    retries := jsOrDefault o.retries 0
    waitTime := jsOrDefault o.waitTime 1000
    nextTasks := o.nextTasks
    state := TaskState.not_started
    time := 0
    execCalls := 0
    condCalls := 0 }

/-- One attempt: `Task.runTask` (src/index.ts lines 104-124).
Sets state to `in_progress`, awaits `execute()`; if it rejects the catch
block sets state to `failed` and rethrows.  Otherwise awaits
`checkCondition()`; a rejection is rethrown the same way, and a `false`
result throws `new Error("Condition not met")` (also caught: state
`failed`).  On success records `endTime - startTime` into `time`, sets
state to `completed` and returns `execute`'s result. -/
def Task.runTask (t : Task) : Task × Except JsError (Option String) :=
  let t0 := { t with state := TaskState.in_progress }
  let k := t0.execCalls
  let t1 := { t0 with execCalls := k + 1 }
  match t1.execBeh k with
  | ExecOutcome.reject e => ({ t1 with state := TaskState.failed }, Except.error e)
  | ExecOutcome.resolve result =>
    let j := t1.condCalls
    let t2 := { t1 with condCalls := j + 1 }
    match t2.condBeh j with
    | CondOutcome.reject e => ({ t2 with state := TaskState.failed }, Except.error e)
    | CondOutcome.resolve b =>
      if b then
        ({ t2 with time := t2.execDur k, state := TaskState.completed }, Except.ok result)
      else
        ({ t2 with state := TaskState.failed }, Except.error conditionNotMetError)

/-- The retry loop of `Task.run` (src/index.ts lines 148-168):

```
let currentRetries = 0;
let hasRun = false;
while (currentRetries < this.retries || !hasRun) {
  try { return await this.runTask(); }
  catch (error) {
    if (this.waitTime > 0) { await wait(this.waitTime); }
    if (currentRetries >= this.retries) { throw error; }
  }
  hasRun = true;
  currentRetries++;
}
```

`currentRetries` is only ever used in the comparisons
`currentRetries < this.retries` and `currentRetries >= this.retries` and in
`currentRetries++`, and nothing in `runTask` writes `this.retries`, so the
loop is translated structurally on `gas = this.retries - currentRetries`
(initially `this.retries`): the guard `currentRetries < this.retries`
becomes `0 < gas`, the catch-block test `currentRetries >= this.retries`
becomes `gas = 0`, and `currentRetries++` becomes `gas - 1`.  Falling
out of the loop resolves the promise with `undefined` (`Except.ok none`).
The `wait(this.waitTime)` suspension changes no observable state and is
elided. -/
def Task.runLoop (t : Task) (gas : Nat) (hasRun : Bool) :
    Task × Except JsError (Option String) :=
  if 0 < gas ∨ hasRun = false then
    match t.runTask, gas with
    | (t9, Except.ok r), _ => (t9, Except.ok r)
    | (t9, Except.error e), 0 => (t9, Except.error e)
    | (t9, Except.error _), g + 1 => Task.runLoop t9 g true
  else (t, Except.ok none)

/-- Task.run (src/index.ts lines 148-168): enter the retry loop with
`currentRetries = 0` (`gas = this.retries`) and `hasRun = false`. -/
def Task.run (t : Task) : Task × Except JsError (Option String) :=
  Task.runLoop t t.retries false

/-!
A child of a TaskGroup is `Task | TaskGroup` (src/index.ts line 194).
A TaskGroup (src/index.ts lines 192-223) is its id together with its
insertion-ordered `children` map; since `addChild` always keys an entry by
the child's own `id`, the map is represented by the ordered list of child
nodes, each entry's key being the node's id.
-/
mutual
/-- A Task or a nested TaskGroup (id with ordered children). -/
inductive Node where
  | task : Task → Node
  | group : String → NodeList → Node

/-- Ordered list of children of a TaskGroup. -/
inductive NodeList where
  | nil : NodeList
  | cons : Node → NodeList → NodeList
end

/-- Map key of a child entry: the id the node was inserted under
(`taskGroup.children.set(task.id, task)`, src/index.ts line 212). -/
def Node.key : Node → String
  | Node.task t => t.id
  | Node.group gid _ => gid

/-- Lookup in the insertion-ordered children map (`Map.get`): the first
entry whose key matches.  JS `Map` keys are unique, so for maps built by
`addChild` this is exactly `Map.prototype.get`. -/
def NodeList.get : NodeList → String → Option Node
  | NodeList.nil, _ => none
  | NodeList.cons c rest, k =>
    if Node.key c = k then some c else NodeList.get rest k

/-- In-place mutation of the map entry retrieved for a key: replaces the
first entry whose key matches (the one `NodeList.get` returns), leaving
everything else untouched. -/
def NodeList.replaceFirst : NodeList → String → Node → NodeList
  | NodeList.nil, _, _ => NodeList.nil
  | NodeList.cons c rest, k, n =>
    if Node.key c = k then NodeList.cons n rest
    else NodeList.cons c (NodeList.replaceFirst rest k n)

/-- TaskGroup.addChild (src/index.ts lines 211-213):
`this.children.set(task.id, task)` — replace in place if the id is already
present, otherwise append. -/
def NodeList.addChild (cs : NodeList) (n : Node) : NodeList :=
  match NodeList.get cs (Node.key n) with
  | some _ => NodeList.replaceFirst cs (Node.key n) n
  | none =>
    match cs with
    | NodeList.nil => NodeList.cons n NodeList.nil
    | NodeList.cons c rest => NodeList.cons c (NodeList.addChild rest n)

/-- TaskGroup.removeChild (src/index.ts lines 220-222):
`this.children.delete(taskId)`. -/
def NodeList.removeChild : NodeList → String → NodeList
  | NodeList.nil, _ => NodeList.nil
  | NodeList.cons c rest, k =>
    if Node.key c = k then rest else NodeList.cons c (NodeList.removeChild rest k)

/-- SerializedData (src/index.ts lines 171-176): `{type, state, time,
children?}`, where `children` is itself an id-keyed map of serialized
nodes. -/
inductive SerializedData where
  | mk : String → TaskState → Nat → Option (List (String × SerializedData)) → SerializedData

/-- The `type` field of a serialized node. -/
def SerializedData.type : SerializedData → String
  | SerializedData.mk ty _ _ _ => ty

/-- The `state` field of a serialized node. -/
def SerializedData.state : SerializedData → TaskState
  | SerializedData.mk _ s _ _ => s

/-- The `time` field of a serialized node. -/
def SerializedData.time : SerializedData → Nat
  | SerializedData.mk _ _ tm _ => tm

/-- The `children` field of a serialized node. -/
def SerializedData.children : SerializedData → Option (List (String × SerializedData))
  | SerializedData.mk _ _ _ cs => cs

/-- Accumulator of the `forEach` loop in `serializeTaskGroup`
(src/index.ts lines 353-389): `groupState`, `totalTime`, `hasInProgress`,
`allCompleted`. -/
structure FoldAcc where
  entries : List (String × SerializedData)
  totalTime : Nat
  hasInProgress : Bool
  allCompleted : Bool

/-- The group node assembled at the end of `serializeTaskGroup`
(src/index.ts lines 391-403): `groupStatus` is `in_progress` if
`hasInProgress`, else `completed` if `allCompleted`, else `not_started`. -/
def mkGroupData (acc : FoldAcc) : SerializedData :=
  SerializedData.mk "task-group"
    (if acc.hasInProgress then TaskState.in_progress
     else if acc.allCompleted then TaskState.completed
     else TaskState.not_started)
    acc.totalTime
    (some acc.entries)

/-- The `taskGroup.children.forEach` body of `serializeTaskGroup`
(src/index.ts lines 358-389), processed in insertion order.

For every child, `childTime = (child as Task).time || 0`: a Task child
contributes its recorded `time` (`x || 0` is `x` on a natural number),
while a TaskGroup child has no `time` field at all, so the cast reads
`undefined` and contributes `0`.  A Task child's entry is
`{type: "task", state: child.state, time: childTime}` (the constructor
always sets `state`, so `child.state || "not_started"` is `child.state`);
a TaskGroup child's entry is its recursive serialization (whose `type` is
already `"task-group"`, so the `{...childGroupData, type: "task-group"}`
spread changes nothing).  The flags test the Task child's `state`, resp.
the child group's derived `state`. -/
def serializeChildrenFold : NodeList → FoldAcc
  | NodeList.nil => { entries := [], totalTime := 0, hasInProgress := false, allCompleted := true }
  | NodeList.cons (Node.task t) rest =>
    let acc := serializeChildrenFold rest
    { entries := (t.id, SerializedData.mk "task" t.state t.time none) :: acc.entries
      totalTime := t.time + acc.totalTime
      hasInProgress := decide (t.state = TaskState.in_progress) || acc.hasInProgress
      allCompleted := decide (t.state = TaskState.completed) && acc.allCompleted }
  | NodeList.cons (Node.group gid gcs) rest =>
    let d := mkGroupData (serializeChildrenFold gcs)
    let acc := serializeChildrenFold rest
    { entries := (gid, d) :: acc.entries
      totalTime := 0 + acc.totalTime
      hasInProgress := decide (SerializedData.state d = TaskState.in_progress) || acc.hasInProgress
      allCompleted := decide (SerializedData.state d = TaskState.completed) && acc.allCompleted }

/-- serializeTaskGroup (src/index.ts lines 352-404): fold over the
children, then assemble the group node. -/
def serializeTaskGroup (_gid : String) (cs : NodeList) : SerializedData :=
  mkGroupData (serializeChildrenFold cs)

/-- FlowControl (src/index.ts lines 235-243): the registration-ordered map
of root TaskGroups (keyed by group id, which `addGroup` takes from the
group itself) and the shared branch pointer `nextTaskId`
(`undefined` is `none`). -/
structure FlowControl where
  taskGroups : List (String × NodeList)
  nextTaskId : Option String

/-- FlowControl constructor (src/index.ts lines 240-243). -/
def FlowControl.new : FlowControl :=
  { taskGroups := [], nextTaskId := none }

/-- FlowControl.getSerializedState (src/index.ts lines 351-412): serialize
each root group under its map key. -/
def FlowControl.getSerializedState (fc : FlowControl) : List (String × SerializedData) :=
  fc.taskGroups.map (fun g => (g.1, serializeTaskGroup g.1 g.2))

/-- JavaScript truthiness of `string | undefined`: truthy iff defined and
non-empty. -/
def jsTruthy : Option String → Bool
  | none => false
  | some s => decide (s ≠ "")

/-- FlowControl.executeTask (src/index.ts lines 285-299), as a function of
the current `this.nextTaskId` and the task; returns the mutated task, the
new `this.nextTaskId`, and whether the awaited `task.run()` threw.

`if (this.nextTaskId && task.id !== this.nextTaskId)`: mark the task
`skipped` and return without invoking it.  Otherwise await `task.run()`
(a rejection propagates with `nextTaskId` untouched); then
`if (nextTaskId) this.nextTaskId = nextTaskId; else if (this.nextTaskId)
delete this.nextTaskId;` — a truthy result arms the pointer, a falsy
result clears a previously armed pointer. -/
def FlowControl.executeTask (ptr : Option String) (t : Task) :
    Task × Option String × Except JsError Unit :=
  if jsTruthy ptr && decide (some t.id ≠ ptr) then
    ({ t with state := TaskState.skipped }, ptr, Except.ok ())
  else
    match Task.run t with
    | (t9, Except.error e) => (t9, ptr, Except.error e)
    | (t9, Except.ok result) =>
      if jsTruthy result then (t9, result, Except.ok ())
      else if jsTruthy ptr then (t9, none, Except.ok ())
      else (t9, ptr, Except.ok ())

/-- FlowControl.runTaskGroup (src/index.ts lines 309-320): the `for` loop
over `taskGroup.children.values()` with the `instanceof Task` dispatch —
a Task child goes through `executeTask`, a TaskGroup child is traversed
recursively.  Each child is fully awaited before the next; an exception
aborts the loop, leaving the remaining children untouched.  The state
threaded through is the shared `this.nextTaskId` pointer; the updated
children (tasks are mutated in place) are returned alongside it.  The
`success` emission at the end has no effect on any modelled state. -/
def FlowControl.runNodes (ptr : Option String) :
    NodeList → NodeList × Option String × Except JsError Unit
  | NodeList.nil => (NodeList.nil, ptr, Except.ok ())
  | NodeList.cons (Node.task t) rest =>
    match FlowControl.executeTask ptr t with
    | (t9, ptr9, Except.error e) =>
      (NodeList.cons (Node.task t9) rest, ptr9, Except.error e)
    | (t9, ptr9, Except.ok _) =>
      match FlowControl.runNodes ptr9 rest with
      | (rest9, ptr99, r) => (NodeList.cons (Node.task t9) rest9, ptr99, r)
  | NodeList.cons (Node.group gid gcs) rest =>
    match FlowControl.runNodes ptr gcs with
    | (gcs9, ptr9, Except.error e) =>
      (NodeList.cons (Node.group gid gcs9) rest, ptr9, Except.error e)
    | (gcs9, ptr9, Except.ok _) =>
      match FlowControl.runNodes ptr9 rest with
      | (rest9, ptr99, r) => (NodeList.cons (Node.group gid gcs9) rest9, ptr99, r)

/-- The loop of FlowControl.run (src/index.ts lines 325-330): traverse
each root TaskGroup in registration order, fully awaiting each; a
rejection aborts the loop, leaving the remaining root groups untouched. -/
def FlowControl.runGroups (ptr : Option String) :
    List (String × NodeList) →
      List (String × NodeList) × Option String × Except JsError Unit
  | [] => ([], ptr, Except.ok ())
  | (gid, cs) :: rest =>
    match FlowControl.runNodes ptr cs with
    | (cs9, ptr9, Except.error e) => ((gid, cs9) :: rest, ptr9, Except.error e)
    | (cs9, ptr9, Except.ok _) =>
      match FlowControl.runGroups ptr9 rest with
      | (rest9, ptr99, r) => ((gid, cs9) :: rest9, ptr99, r)

/-- FlowControl.run (src/index.ts lines 325-330). -/
def FlowControl.run (fc : FlowControl) : FlowControl × Except JsError Unit :=
  match FlowControl.runGroups fc.nextTaskId fc.taskGroups with
  | (gs, ptr, r) => ({ taskGroups := gs, nextTaskId := ptr }, r)

/-- The loop of FlowControl.runTask (src/index.ts lines 336-344): for each
root group in registration order, `taskGroup.children.get(taskId)`; if the
retrieved entry is a Task (`instanceof Task`), await `executeTask` on it
(writing the mutated task back to its map slot); child TaskGroups and
missing keys are ignored.  An exception aborts the loop. -/
def FlowControl.runTaskLoop (ptr : Option String) (tid : String) :
    List (String × NodeList) →
      List (String × NodeList) × Option String × Except JsError Unit
  | [] => ([], ptr, Except.ok ())
  | (gid, cs) :: rest =>
    match NodeList.get cs tid with
    | some (Node.task t) =>
      match FlowControl.executeTask ptr t with
      | (t9, ptr9, Except.error e) =>
        ((gid, NodeList.replaceFirst cs tid (Node.task t9)) :: rest, ptr9, Except.error e)
      | (t9, ptr9, Except.ok _) =>
        match FlowControl.runTaskLoop ptr9 tid rest with
        | (rest9, ptr99, r) =>
          ((gid, NodeList.replaceFirst cs tid (Node.task t9)) :: rest9, ptr99, r)
    | _ =>
      match FlowControl.runTaskLoop ptr tid rest with
      | (rest9, ptr9, r) => ((gid, cs) :: rest9, ptr9, r)

/-- FlowControl.runTask (src/index.ts lines 336-344). -/
def FlowControl.runTask (fc : FlowControl) (tid : String) :
    FlowControl × Except JsError Unit :=
  match FlowControl.runTaskLoop fc.nextTaskId tid fc.taskGroups with
  | (gs, ptr, r) => ({ taskGroups := gs, nextTaskId := ptr }, r)

/-! Unfolding lemmas for the single-attempt protocol `Task.runTask`. -/

/-- A rejection of `execute` fails the attempt: state `failed`, the error
rethrown, `execute` invoked once more, `checkCondition` not invoked. -/
theorem Task.runTask_execReject {t : Task} {e : JsError}
    (h : t.execBeh t.execCalls = ExecOutcome.reject e) :
    t.runTask =
      ({ t with
          state := TaskState.failed
          execCalls := t.execCalls + 1 },
       Except.error e) := by
  simp only [Task.runTask, h]

/-- A rejection of `checkCondition` fails the attempt the same way. -/
theorem Task.runTask_condReject {t : Task} {r : Option String} {e : JsError}
    (hx : t.execBeh t.execCalls = ExecOutcome.resolve r)
    (hc : t.condBeh t.condCalls = CondOutcome.reject e) :
    t.runTask =
      ({ t with
          state := TaskState.failed
          execCalls := t.execCalls + 1
          condCalls := t.condCalls + 1 },
       Except.error e) := by
  simp only [Task.runTask, hx, hc]

/-- `checkCondition` resolving false fails the attempt with the
"Condition not met" error. -/
theorem Task.runTask_condFalse {t : Task} {r : Option String}
    (hx : t.execBeh t.execCalls = ExecOutcome.resolve r)
    (hc : t.condBeh t.condCalls = CondOutcome.resolve false) :
    t.runTask =
      ({ t with
          state := TaskState.failed
          execCalls := t.execCalls + 1
          condCalls := t.condCalls + 1 },
       Except.error conditionNotMetError) := by
  simp only [Task.runTask, hx, hc]
  rfl

/-- A successful attempt: state `completed`, recorded time, `execute`'s
result returned. -/
theorem Task.runTask_success {t : Task} {r : Option String}
    (hx : t.execBeh t.execCalls = ExecOutcome.resolve r)
    (hc : t.condBeh t.condCalls = CondOutcome.resolve true) :
    t.runTask =
      ({ t with
          state := TaskState.completed
          time := t.execDur t.execCalls
          execCalls := t.execCalls + 1
          condCalls := t.condCalls + 1 },
       Except.ok r) := by
  simp only [Task.runTask, hx, hc]
  rfl

/-! Unfolding lemmas for the retry loop `Task.runLoop`. -/

/-- A successful attempt short-circuits the loop and returns its result. -/
theorem Task.runLoop_ok {t t9 : Task} {r : Option String} {gas : Nat}
    {hasRun : Bool} (hguard : 0 < gas ∨ hasRun = false)
    (h : t.runTask = (t9, Except.ok r)) :
    Task.runLoop t gas hasRun = (t9, Except.ok r) := by
  rw [Task.runLoop.eq_def, if_pos hguard, h]

/-- A failed attempt with `currentRetries >= retries` (translated: no gas
left) rethrows the last error. -/
theorem Task.runLoop_error_last {t t9 : Task} {e : JsError} {hasRun : Bool}
    (hguard : 0 < 0 ∨ hasRun = false)
    (h : t.runTask = (t9, Except.error e)) :
    Task.runLoop t 0 hasRun = (t9, Except.error e) := by
  rw [Task.runLoop.eq_def, if_pos hguard, h]

/-- A failed attempt with retries remaining iterates the loop. -/
theorem Task.runLoop_error_retry {t t9 : Task} {e : JsError} {g : Nat}
    {hasRun : Bool} (h : t.runTask = (t9, Except.error e)) :
    Task.runLoop t (g + 1) hasRun = Task.runLoop t9 g true := by
  rw [Task.runLoop.eq_def, if_pos (Or.inl (Nat.succ_pos g)), h]

/-- Falling out of the loop resolves the promise with `undefined`. -/
theorem Task.runLoop_exit (t : Task) :
    Task.runLoop t 0 true = (t, Except.ok none) := by
  rw [Task.runLoop.eq_def, if_neg]
  simp

/-! Claim C1. -/

/-- The error with which every `execute` call of the C1 scenario rejects. -/
def c1Error : JsError := { message := "boom", tag := 7 }

/-- C1 scenario: a task with `retries = 2` whose `execute` rejects on every
call. -/
def c1Task : Task :=
  { id := "t1"
    execBeh := fun _ => ExecOutcome.reject c1Error
    condBeh := fun _ => CondOutcome.resolve true
    execDur := fun _ => 0
    retries := 2
    waitTime := 0
    nextTasks := none
    state := TaskState.not_started
    time := 0
    execCalls := 0
    condCalls := 0 }

/-- C1: the claim says that for a Task with `retries = N` whose `execute`
always rejects, `run()` invokes the execution function exactly `N + 1`
times, leaves the state `failed`, and rejects with the last error.  On the
code, for `N = 2`, `run()` invokes `execute` only 2 times (not 3), leaves
the state `failed`, and — because the loop guard
`currentRetries < this.retries || !hasRun` exits before the catch-block
test `currentRetries >= this.retries` ever fires — resolves with
`undefined` instead of rejecting: the last error is swallowed.  The code
contradicts its own doc comment ("If the task continues to fail after all
retries are exhausted, the error is thrown", src/index.ts line 132). -/
theorem c1_run_makes_two_attempts_and_swallows_error :
    (Task.run c1Task).1.execCalls = 2 ∧
    (Task.run c1Task).1.state = TaskState.failed ∧
    (Task.run c1Task).2 = Except.ok none ∧
    (Task.run c1Task).1.execCalls ≠ c1Task.retries + 1 ∧
    ∀ e : JsError, (Task.run c1Task).2 ≠ Except.error e := by
  refine ⟨rfl, rfl, rfl, by decide, ?_⟩
  intro e h
  rw [show (Task.run c1Task).2 = Except.ok none from rfl] at h
  exact Except.noConfusion h

/-! Claim C2. -/

/-- C2 scenario: a construction option object with `waitTime` explicitly
set to 0. -/
def c2Options : TaskOptions :=
  { id := "t2"
    execBeh := fun _ => ExecOutcome.resolve none
    condBeh := fun _ => CondOutcome.resolve true
    execDur := fun _ => 0
    nextTasks := none
    retries := none
    waitTime := some 0 }

/-- C2: the claim says a Task constructed with `waitTime` explicitly 0 has
`waitTime` 0.  On the code, `this.waitTime = options.waitTime || 1000`
treats the falsy number 0 like `undefined`, so the constructed task's
`waitTime` is 1000, not 0: a zero retry delay cannot be configured through
the constructor, although the retry protocol itself supports it
(`if (this.waitTime > 0) await wait(...)`, src/index.ts line 156) and the
doc comment announces 1000 only as the default for an omitted option
(src/index.ts line 29). -/
theorem c2_explicit_zero_waitTime_becomes_1000 :
    c2Options.waitTime = some 0 ∧
    (Task.new c2Options).waitTime = 1000 ∧
    (Task.new c2Options).waitTime ≠ 0 :=
  ⟨rfl, rfl, by decide⟩

/-! Claim C6. -/

/-- C6: for every Task (with fresh instrumentation counters) whose
`execute` succeeds on the first attempt and whose `checkCondition`
resolves true, `Task.run` ends with state `completed`, a recorded time
that is the (non-negative) duration of the attempt, exactly one invocation
of `execute` and of `checkCondition`, and returns `execute`'s result
(`none` for void, `some id` for a branch target). -/
theorem c6_first_attempt_success (t : Task) (r : Option String)
    (hx0 : t.execCalls = 0) (hc0 : t.condCalls = 0)
    (hx : t.execBeh 0 = ExecOutcome.resolve r)
    (hc : t.condBeh 0 = CondOutcome.resolve true) :
    (Task.run t).1.state = TaskState.completed ∧
    (Task.run t).1.time = t.execDur 0 ∧
    0 ≤ (Task.run t).1.time ∧
    (Task.run t).1.execCalls = 1 ∧
    (Task.run t).1.condCalls = 1 ∧
    (Task.run t).2 = Except.ok r := by
  have hrt : t.runTask =
      ({ t with
          state := TaskState.completed
          time := t.execDur t.execCalls
          execCalls := t.execCalls + 1
          condCalls := t.condCalls + 1 },
       Except.ok r) :=
    Task.runTask_success (by rw [hx0, hx]) (by rw [hc0, hc])
  have hrun : Task.run t =
      ({ t with
          state := TaskState.completed
          time := t.execDur t.execCalls
          execCalls := t.execCalls + 1
          condCalls := t.condCalls + 1 },
       Except.ok r) :=
    Task.runLoop_ok (Or.inr rfl) hrt
  rw [hrun]
  exact ⟨rfl, by simp [hx0], Nat.zero_le _, by simp [hx0], by simp [hc0], rfl⟩

/-- C6 witness: a concrete first-attempt-success task. -/
def c6Task : Task :=
  { id := "t6"
    execBeh := fun _ => ExecOutcome.resolve (some "next")
    condBeh := fun _ => CondOutcome.resolve true
    execDur := fun _ => 4
    retries := 3
    waitTime := 1000
    nextTasks := none
    state := TaskState.not_started
    time := 0
    execCalls := 0
    condCalls := 0 }

/-- C6 witness: the hypotheses of `c6_first_attempt_success` hold for
`c6Task` and the conclusion follows by applying the theorem. -/
theorem c6_first_attempt_success_witness :
    (c6Task.execCalls = 0 ∧ c6Task.condCalls = 0 ∧
     c6Task.execBeh 0 = ExecOutcome.resolve (some "next") ∧
     c6Task.condBeh 0 = CondOutcome.resolve true) ∧
    ((Task.run c6Task).1.state = TaskState.completed ∧
     (Task.run c6Task).1.time = c6Task.execDur 0 ∧
     0 ≤ (Task.run c6Task).1.time ∧
     (Task.run c6Task).1.execCalls = 1 ∧
     (Task.run c6Task).1.condCalls = 1 ∧
     (Task.run c6Task).2 = Except.ok (some "next")) :=
  ⟨⟨rfl, rfl, rfl, rfl⟩,
   c6_first_attempt_success c6Task (some "next") rfl rfl rfl rfl⟩

/-! Claim C7. -/

/-- C7: a single attempt (`Task.runTask`) fails exactly when `execute`
rejects, or `checkCondition` rejects or resolves false; in the
condition-false case the error is the "Condition not met" error; in every
failure case the state is set to `failed` and the error propagates
unchanged.  The fourth conjunct shows there is no further failure case:
when `execute` resolves and the condition resolves true the attempt
succeeds. -/
theorem c7_single_attempt_failure_cases (t : Task) :
    (∀ e : JsError, t.execBeh t.execCalls = ExecOutcome.reject e →
      (t.runTask).1.state = TaskState.failed ∧
      (t.runTask).2 = Except.error e) ∧
    (∀ (r : Option String) (e : JsError),
      t.execBeh t.execCalls = ExecOutcome.resolve r →
      t.condBeh t.condCalls = CondOutcome.reject e →
      (t.runTask).1.state = TaskState.failed ∧
      (t.runTask).2 = Except.error e) ∧
    (∀ r : Option String, t.execBeh t.execCalls = ExecOutcome.resolve r →
      t.condBeh t.condCalls = CondOutcome.resolve false →
      (t.runTask).1.state = TaskState.failed ∧
      (t.runTask).2 = Except.error conditionNotMetError) ∧
    (∀ r : Option String, t.execBeh t.execCalls = ExecOutcome.resolve r →
      t.condBeh t.condCalls = CondOutcome.resolve true →
      (t.runTask).1.state = TaskState.completed ∧
      (t.runTask).2 = Except.ok r) := by
  refine ⟨?_, ?_, ?_, ?_⟩
  · intro e h
    rw [Task.runTask_execReject h]
    exact ⟨rfl, rfl⟩
  · intro r e hx hc
    rw [Task.runTask_condReject hx hc]
    exact ⟨rfl, rfl⟩
  · intro r hx hc
    rw [Task.runTask_condFalse hx hc]
    exact ⟨rfl, rfl⟩
  · intro r hx hc
    rw [Task.runTask_success hx hc]
    exact ⟨rfl, rfl⟩

/-- C7 witness: a concrete task whose condition check resolves false. -/
def c7Task : Task :=
  { id := "t7"
    execBeh := fun _ => ExecOutcome.resolve none
    condBeh := fun _ => CondOutcome.resolve false
    execDur := fun _ => 2
    retries := 0
    waitTime := 0
    nextTasks := none
    state := TaskState.not_started
    time := 0
    execCalls := 0
    condCalls := 0 }

/-- C7 witness: the condition-false case at a concrete input, via
`c7_single_attempt_failure_cases`. -/
theorem c7_single_attempt_failure_cases_witness :
    (c7Task.execBeh 0 = ExecOutcome.resolve none ∧
     c7Task.condBeh 0 = CondOutcome.resolve false) ∧
    ((c7Task.runTask).1.state = TaskState.failed ∧
     (c7Task.runTask).2 = Except.error conditionNotMetError) :=
  ⟨⟨rfl, rfl⟩,
   (c7_single_attempt_failure_cases c7Task).2.2.1 none rfl rfl⟩

/-! Characterization of the serialization fold. -/

/-- The state a child contributes to its parent's derivation: a Task child
its own `state` field, a TaskGroup child its derived serialized state. -/
def childDerivedState : Node → TaskState
  | Node.task t => t.state
  | Node.group gid gcs => (serializeTaskGroup gid gcs).state

/-- Some child's derived state is `in_progress`. -/
def NodeList.anyInProgress : NodeList → Bool
  | NodeList.nil => false
  | NodeList.cons c rest =>
    decide (childDerivedState c = TaskState.in_progress) || NodeList.anyInProgress rest

/-- Every child's derived state is `completed`. -/
def NodeList.allCompleted : NodeList → Bool
  | NodeList.nil => true
  | NodeList.cons c rest =>
    decide (childDerivedState c = TaskState.completed) && NodeList.allCompleted rest

/-- What each child contributes to the code's `totalTime`: a Task child its
recorded `time`, a TaskGroup child 0 (it has no `time` field, so
`(child as Task).time || 0` reads `undefined`). -/
def codeChildTimeSum : NodeList → Nat
  | NodeList.nil => 0
  | NodeList.cons (Node.task t) rest => t.time + codeChildTimeSum rest
  | NodeList.cons (Node.group _ _) rest => 0 + codeChildTimeSum rest

/-- The `hasInProgress` flag of the fold is exactly "some child's derived
state is `in_progress`". -/
theorem serializeChildrenFold_hasInProgress :
    ∀ cs : NodeList,
      (serializeChildrenFold cs).hasInProgress = NodeList.anyInProgress cs
  | NodeList.nil => rfl
  | NodeList.cons (Node.task t) rest => by
    simp [serializeChildrenFold, NodeList.anyInProgress, childDerivedState,
      serializeChildrenFold_hasInProgress rest]
  | NodeList.cons (Node.group gid gcs) rest => by
    simp [serializeChildrenFold, NodeList.anyInProgress, childDerivedState,
      serializeTaskGroup, serializeChildrenFold_hasInProgress rest]

/-- The `allCompleted` flag of the fold is exactly "every child's derived
state is `completed`". -/
theorem serializeChildrenFold_allCompleted :
    ∀ cs : NodeList,
      (serializeChildrenFold cs).allCompleted = NodeList.allCompleted cs
  | NodeList.nil => rfl
  | NodeList.cons (Node.task t) rest => by
    simp [serializeChildrenFold, NodeList.allCompleted, childDerivedState,
      serializeChildrenFold_allCompleted rest]
  | NodeList.cons (Node.group gid gcs) rest => by
    simp [serializeChildrenFold, NodeList.allCompleted, childDerivedState,
      serializeTaskGroup, serializeChildrenFold_allCompleted rest]

/-- The `totalTime` of the fold sums only the Task children's times. -/
theorem serializeChildrenFold_totalTime :
    ∀ cs : NodeList, (serializeChildrenFold cs).totalTime = codeChildTimeSum cs
  | NodeList.nil => rfl
  | NodeList.cons (Node.task t) rest => by
    simp [serializeChildrenFold, codeChildTimeSum,
      serializeChildrenFold_totalTime rest]
  | NodeList.cons (Node.group gid gcs) rest => by
    simp [serializeChildrenFold, codeChildTimeSum,
      serializeChildrenFold_totalTime rest]

/-! Claim C4. -/

/-- A completed task with recorded time `tm`, for concrete scenarios. -/
def doneTask (nm : String) (tm : Nat) : Task :=
  { id := nm
    execBeh := fun _ => ExecOutcome.resolve none
    condBeh := fun _ => CondOutcome.resolve true
    execDur := fun _ => tm
    retries := 0
    waitTime := 1000
    nextTasks := none
    state := TaskState.completed
    time := tm
    execCalls := 1
    condCalls := 1 }

/-- A never-run task in a given state, for concrete scenarios. -/
def idleTask (nm : String) (st : TaskState) : Task :=
  { id := nm
    execBeh := fun _ => ExecOutcome.resolve none
    condBeh := fun _ => CondOutcome.resolve true
    execDur := fun _ => 0
    retries := 0
    waitTime := 1000
    nextTasks := none
    state := st
    time := 0
    execCalls := 0
    condCalls := 0 }

/-- C4 scenario: one `failed` child among otherwise `not_started`
children. -/
def c4FailedMix : NodeList :=
  NodeList.cons (Node.task (idleTask "a" TaskState.failed))
    (NodeList.cons (Node.task (idleTask "b" TaskState.not_started))
      (NodeList.cons (Node.task (idleTask "c" TaskState.not_started))
        NodeList.nil))

/-- C4 scenario: one `in_progress` child next to a `failed` and a
`completed` child. -/
def c4InProgressMix : NodeList :=
  NodeList.cons (Node.task (idleTask "a" TaskState.failed))
    (NodeList.cons (Node.task (idleTask "b" TaskState.in_progress))
      (NodeList.cons (Node.task (doneTask "c" 3)) NodeList.nil))

/-- C4: a serialized TaskGroup node's state is derived as `in_progress` if
any child (a Task by its `state` field, a child TaskGroup by its own
derived state) is in progress; else `completed` if every child is
completed; else `not_started`.  In particular a group with one `failed`
child and otherwise `not_started` children reports `not_started`, and a
group with an `in_progress` child reports `in_progress` regardless of the
other children's states. -/
theorem c4_group_state_derivation :
    (∀ (gid : String) (cs : NodeList),
      (serializeTaskGroup gid cs).state =
        (if NodeList.anyInProgress cs then TaskState.in_progress
         else if NodeList.allCompleted cs then TaskState.completed
         else TaskState.not_started)) ∧
    (serializeTaskGroup "g4" c4FailedMix).state = TaskState.not_started ∧
    (serializeTaskGroup "g4" c4InProgressMix).state = TaskState.in_progress := by
  refine ⟨?_, rfl, rfl⟩
  intro gid cs
  simp only [serializeTaskGroup, mkGroupData, SerializedData.state,
    serializeChildrenFold_hasInProgress, serializeChildrenFold_allCompleted]

/-! Claim C8. -/

/-- Modelled from the spec (claim C8): the claimed group time — the sum of
the immediate children's times where a child Task contributes its recorded
`time` and a child TaskGroup contributes that child node's own serialized
`time`. -/
def claimedChildTimeSum : NodeList → Nat
  | NodeList.nil => 0
  | NodeList.cons (Node.task t) rest => t.time + claimedChildTimeSum rest
  | NodeList.cons (Node.group gid gcs) rest =>
    (serializeTaskGroup gid gcs).time + claimedChildTimeSum rest

/-- C8 scenario: a group whose only child is a nested group holding one
task with recorded time 5. -/
def c8Children : NodeList :=
  NodeList.cons
    (Node.group "H" (NodeList.cons (Node.task (doneTask "b" 5)) NodeList.nil))
    NodeList.nil

/-- C8 counterexample: the nested group child serializes with time 5, so
the claimed sum over the parent's children is 5, but the parent group's
serialized time is 0 — `(child as Task).time || 0` reads `undefined` for a
TaskGroup child, which has no `time` field, so a child group contributes
0, not its own serialized time. -/
theorem c8_counterexample :
    (serializeTaskGroup "H"
      (NodeList.cons (Node.task (doneTask "b" 5)) NodeList.nil)).time = 5 ∧
    claimedChildTimeSum c8Children = 5 ∧
    (serializeTaskGroup "G" c8Children).time = 0 ∧
    (serializeTaskGroup "G" c8Children).time ≠ claimedChildTimeSum c8Children :=
  ⟨rfl, rfl, rfl, by decide⟩

/-- C8 amended: a serialized TaskGroup node's time is the sum of its
immediate Task children's recorded times only; a child TaskGroup
contributes 0 (not its own serialized time), because `TaskGroup` has no
`time` field and `(child as Task).time || 0` therefore yields 0. -/
theorem c8_group_time_sums_only_task_children (gid : String) (cs : NodeList) :
    (serializeTaskGroup gid cs).time = codeChildTimeSum cs := by
  simp only [serializeTaskGroup, mkGroupData, SerializedData.time,
    serializeChildrenFold_totalTime]

/-! Claim C10. -/

/-- C10: a TaskGroup with no children serializes to a node with state
`completed` (the `allCompleted` flag starts true and stays true
vacuously), time 0 and an empty children map — an empty group reports as
finished even if nothing ever ran. -/
theorem c10_empty_group_serializes_completed (gid : String) :
    serializeTaskGroup gid NodeList.nil =
      SerializedData.mk "task-group" TaskState.completed 0 (some []) := rfl

/-! Claim C3. -/

/-- C3: while the branch pointer `nextTaskId` is armed with an id `p`,
`executeTask` sets every task whose id differs from `p` to `skipped`
without invoking it (same `execCalls`, pointer untouched); the task whose
id matches runs its retry protocol normally, and afterwards the pointer is
cleared if the protocol resolved with nothing, re-armed with the returned
id if it resolved with one, and left untouched if the protocol rejected
(the rejection propagating). -/
theorem c3_branch_pointer_skip_and_clear (p : String) (hp : p ≠ "") (t : Task) :
    (t.id ≠ p →
      FlowControl.executeTask (some p) t =
        ({ t with state := TaskState.skipped }, some p, Except.ok ())) ∧
    (t.id = p →
      (∀ t9 : Task, Task.run t = (t9, Except.ok none) →
        FlowControl.executeTask (some p) t = (t9, none, Except.ok ())) ∧
      (∀ (t9 : Task) (s : String), s ≠ "" →
        Task.run t = (t9, Except.ok (some s)) →
        FlowControl.executeTask (some p) t = (t9, some s, Except.ok ())) ∧
      (∀ (t9 : Task) (e : JsError), Task.run t = (t9, Except.error e) →
        FlowControl.executeTask (some p) t = (t9, some p, Except.error e))) := by
  constructor
  · intro h
    have hcond : (jsTruthy (some p) && decide (some t.id ≠ some p)) = true := by
      simp [jsTruthy, hp, h]
    simp only [FlowControl.executeTask]
    rw [hcond]
    simp
  · intro h
    subst h
    have hcond : (jsTruthy (some t.id) && decide (some t.id ≠ some t.id)) = false := by
      simp
    refine ⟨?_, ?_, ?_⟩
    · intro t9 hr
      simp only [FlowControl.executeTask]
      rw [hcond, hr]
      simp [jsTruthy, hp]
    · intro t9 s hs hr
      simp only [FlowControl.executeTask]
      rw [hcond, hr]
      simp [jsTruthy, hs]
    · intro t9 e hr
      simp only [FlowControl.executeTask]
      rw [hcond, hr]
      rfl

/-- C3 witness scenario: the armed pointer is "B"; `c3TaskX` has a
different id and would reject if it ever ran; `c3TaskB` matches and
resolves with nothing. -/
def c3TaskX : Task :=
  { id := "X"
    execBeh := fun _ => ExecOutcome.reject { message := "never runs", tag := 1 }
    condBeh := fun _ => CondOutcome.resolve true
    execDur := fun _ => 0
    retries := 0
    waitTime := 0
    nextTasks := none
    state := TaskState.not_started
    time := 0
    execCalls := 0
    condCalls := 0 }

/-- C3 witness scenario: the task whose id matches the armed pointer. -/
def c3TaskB : Task :=
  { id := "B"
    execBeh := fun _ => ExecOutcome.resolve none
    condBeh := fun _ => CondOutcome.resolve true
    execDur := fun _ => 1
    retries := 0
    waitTime := 0
    nextTasks := none
    state := TaskState.not_started
    time := 0
    execCalls := 0
    condCalls := 0 }

/-- C3 witness: with pointer "B", the mismatched task `c3TaskX` is skipped
without invocation and the matching task `c3TaskB` runs and clears the
pointer, via `c3_branch_pointer_skip_and_clear`. -/
theorem c3_branch_pointer_skip_and_clear_witness :
    ("B" ≠ "" ∧ c3TaskX.id ≠ "B" ∧ c3TaskB.id = "B") ∧
    FlowControl.executeTask (some "B") c3TaskX =
      ({ c3TaskX with state := TaskState.skipped }, some "B", Except.ok ()) ∧
    FlowControl.executeTask (some "B") c3TaskB =
      ((Task.run c3TaskB).1, none, Except.ok ()) :=
  ⟨⟨by decide, by decide, rfl⟩,
   (c3_branch_pointer_skip_and_clear "B" (by decide) c3TaskX).1 (by decide),
   ((c3_branch_pointer_skip_and_clear "B" (by decide) c3TaskB).2 rfl).1
     (Task.run c3TaskB).1 rfl⟩

/-! Claim C5. -/

/-- C5: the traversal is strictly sequential and fail-fast.  Within a
group, a child is fully finished before the next sibling starts (the ok
conjuncts thread the pointer from the finished child into the rest of the
list); a rejection from a task's retry protocol — direct child or inside a
nested group — propagates immediately and leaves every later sibling
syntactically untouched (state still whatever it was before the abort,
typically `not_started`, and `execute` never invoked).  The same holds
across root groups in registration order, and `run()` itself rejects with
the propagated error. -/
theorem c5_fail_fast_traversal (ptr : Option String) :
    (∀ (t : Task) (rest : NodeList) (t9 : Task) (ptr9 : Option String) (e : JsError),
      FlowControl.executeTask ptr t = (t9, ptr9, Except.error e) →
      FlowControl.runNodes ptr (NodeList.cons (Node.task t) rest) =
        (NodeList.cons (Node.task t9) rest, ptr9, Except.error e)) ∧
    (∀ (gid : String) (gcs rest : NodeList) (gcs9 : NodeList)
       (ptr9 : Option String) (e : JsError),
      FlowControl.runNodes ptr gcs = (gcs9, ptr9, Except.error e) →
      FlowControl.runNodes ptr (NodeList.cons (Node.group gid gcs) rest) =
        (NodeList.cons (Node.group gid gcs9) rest, ptr9, Except.error e)) ∧
    (∀ (t : Task) (rest : NodeList) (t9 : Task) (ptr9 : Option String),
      FlowControl.executeTask ptr t = (t9, ptr9, Except.ok ()) →
      FlowControl.runNodes ptr (NodeList.cons (Node.task t) rest) =
        (NodeList.cons (Node.task t9) (FlowControl.runNodes ptr9 rest).1,
         (FlowControl.runNodes ptr9 rest).2.1,
         (FlowControl.runNodes ptr9 rest).2.2)) ∧
    (∀ (gid : String) (gcs rest : NodeList) (gcs9 : NodeList) (ptr9 : Option String),
      FlowControl.runNodes ptr gcs = (gcs9, ptr9, Except.ok ()) →
      FlowControl.runNodes ptr (NodeList.cons (Node.group gid gcs) rest) =
        (NodeList.cons (Node.group gid gcs9) (FlowControl.runNodes ptr9 rest).1,
         (FlowControl.runNodes ptr9 rest).2.1,
         (FlowControl.runNodes ptr9 rest).2.2)) ∧
    (∀ (gid : String) (cs : NodeList) (rest : List (String × NodeList))
       (cs9 : NodeList) (ptr9 : Option String) (e : JsError),
      FlowControl.runNodes ptr cs = (cs9, ptr9, Except.error e) →
      FlowControl.runGroups ptr ((gid, cs) :: rest) =
        ((gid, cs9) :: rest, ptr9, Except.error e)) ∧
    (∀ (gid : String) (cs : NodeList) (rest : List (String × NodeList))
       (cs9 : NodeList) (ptr9 : Option String),
      FlowControl.runNodes ptr cs = (cs9, ptr9, Except.ok ()) →
      FlowControl.runGroups ptr ((gid, cs) :: rest) =
        ((gid, cs9) :: (FlowControl.runGroups ptr9 rest).1,
         (FlowControl.runGroups ptr9 rest).2.1,
         (FlowControl.runGroups ptr9 rest).2.2)) ∧
    (∀ (fc : FlowControl) (gs : List (String × NodeList))
       (ptr9 : Option String) (e : JsError),
      FlowControl.runGroups fc.nextTaskId fc.taskGroups = (gs, ptr9, Except.error e) →
      (FlowControl.run fc).2 = Except.error e) := by
  refine ⟨?_, ?_, ?_, ?_, ?_, ?_, ?_⟩
  · intro t rest t9 ptr9 e h
    simp only [FlowControl.runNodes]
    rw [h]
  · intro gid gcs rest gcs9 ptr9 e h
    simp only [FlowControl.runNodes]
    rw [h]
  · intro t rest t9 ptr9 h
    simp only [FlowControl.runNodes]
    rw [h]
  · intro gid gcs rest gcs9 ptr9 h
    simp only [FlowControl.runNodes]
    rw [h]
  · intro gid cs rest cs9 ptr9 e h
    simp only [FlowControl.runGroups]
    rw [h]
  · intro gid cs rest cs9 ptr9 h
    simp only [FlowControl.runGroups]
    rw [h]
  · intro fc gs ptr9 e h
    simp only [FlowControl.run]
    rw [h]

/-- C5 witness scenario: a task with no retries whose `execute` rejects. -/
def c5FailTask : Task :=
  { id := "f"
    execBeh := fun _ => ExecOutcome.reject { message := "fail", tag := 2 }
    condBeh := fun _ => CondOutcome.resolve true
    execDur := fun _ => 0
    retries := 0
    waitTime := 0
    nextTasks := none
    state := TaskState.not_started
    time := 0
    execCalls := 0
    condCalls := 0 }

/-- C5 witness scenario: a sibling task after the failing one; it must
never start. -/
def c5LaterTask : Task := idleTask "later" TaskState.not_started

/-- C5 witness: with the failing task first, the group traversal rejects
with the task's error and the later sibling is returned untouched (still
`not_started`, `execute` never invoked), via `c5_fail_fast_traversal`. -/
theorem c5_fail_fast_traversal_witness :
    FlowControl.executeTask none c5FailTask =
      ((Task.run c5FailTask).1, none,
       Except.error { message := "fail", tag := 2 }) ∧
    FlowControl.runNodes none
        (NodeList.cons (Node.task c5FailTask)
          (NodeList.cons (Node.task c5LaterTask) NodeList.nil)) =
      (NodeList.cons (Node.task (Task.run c5FailTask).1)
        (NodeList.cons (Node.task c5LaterTask) NodeList.nil),
       none, Except.error { message := "fail", tag := 2 }) :=
  ⟨rfl,
   (c5_fail_fast_traversal none).1 c5FailTask
     (NodeList.cons (Node.task c5LaterTask) NodeList.nil)
     (Task.run c5FailTask).1 none { message := "fail", tag := 2 } rfl⟩

/-! Claim C9. -/

/-- The direct children of a group that are themselves TaskGroups, in
order, with their entire subtrees. -/
def NodeList.directGroupChildren : NodeList → List Node
  | NodeList.nil => []
  | NodeList.cons (Node.task _) rest => NodeList.directGroupChildren rest
  | NodeList.cons (Node.group gid gcs) rest =>
    Node.group gid gcs :: NodeList.directGroupChildren rest

/-- All child-TaskGroup subtrees hanging directly under the root groups of
a forest, in order. -/
def forestGroupChildren : List (String × NodeList) → List Node
  | [] => []
  | (_, cs) :: rest =>
    NodeList.directGroupChildren cs ++ forestGroupChildren rest

/-- Replacing the entry `NodeList.get` found for a key — when that entry
is a Task — with another Task leaves every child-TaskGroup subtree
untouched. -/
theorem directGroupChildren_replaceFirst :
    ∀ (cs : NodeList) (tid : String) (t t9 : Task),
      NodeList.get cs tid = some (Node.task t) →
      NodeList.directGroupChildren
          (NodeList.replaceFirst cs tid (Node.task t9)) =
        NodeList.directGroupChildren cs
  | NodeList.nil, _, _, _, _ => rfl
  | NodeList.cons c rest, tid, t, t9, h => by
    by_cases hk : Node.key c = tid
    · cases c with
      | task u =>
        simp [NodeList.replaceFirst, hk, NodeList.directGroupChildren]
      | group gid gcs =>
        simp only [NodeList.get, if_pos hk] at h
        exact absurd h (by simp)
    · simp only [NodeList.get, if_neg hk] at h
      have ih := directGroupChildren_replaceFirst rest tid t t9 h
      cases c with
      | task u =>
        simp [NodeList.replaceFirst, hk, NodeList.directGroupChildren, ih]
      | group gid gcs =>
        simp [NodeList.replaceFirst, hk, NodeList.directGroupChildren, ih]

/-- `FlowControl.runTask`'s loop leaves every child-TaskGroup subtree of
every root group untouched: it never descends into nested groups. -/
theorem forestGroupChildren_runTaskLoop :
    ∀ (gs : List (String × NodeList)) (ptr : Option String) (tid : String),
      forestGroupChildren (FlowControl.runTaskLoop ptr tid gs).1 =
        forestGroupChildren gs
  | [], _, _ => rfl
  | (gid, cs) :: rest, ptr, tid => by
    cases hget : NodeList.get cs tid with
    | none =>
      rcases hrec : FlowControl.runTaskLoop ptr tid rest with ⟨rest9, ptr9, r⟩
      have ih := forestGroupChildren_runTaskLoop rest ptr tid
      rw [hrec] at ih
      simp only [FlowControl.runTaskLoop, hget, hrec]
      simp [forestGroupChildren, ih]
    | some n =>
      cases n with
      | group gid2 gcs =>
        rcases hrec : FlowControl.runTaskLoop ptr tid rest with ⟨rest9, ptr9, r⟩
        have ih := forestGroupChildren_runTaskLoop rest ptr tid
        rw [hrec] at ih
        simp only [FlowControl.runTaskLoop, hget, hrec]
        simp [forestGroupChildren, ih]
      | task t =>
        rcases hex : FlowControl.executeTask ptr t with ⟨t9, ptr9, res⟩
        cases res with
        | error e =>
          simp only [FlowControl.runTaskLoop, hget, hex]
          simp [forestGroupChildren,
            directGroupChildren_replaceFirst cs tid t t9 hget]
        | ok u =>
          rcases hrec : FlowControl.runTaskLoop ptr9 tid rest with ⟨rest9, ptr99, r⟩
          have ih := forestGroupChildren_runTaskLoop rest ptr9 tid
          rw [hrec] at ih
          simp only [FlowControl.runTaskLoop, hget, hex, hrec]
          simp [forestGroupChildren, ih,
            directGroupChildren_replaceFirst cs tid t t9 hget]

/-- C9: `FlowControl.runTask(id)` examines only the direct children of
each registered root group.  First conjunct: every child-TaskGroup subtree
of every root group is returned verbatim, so a task nested inside a child
group is never found, executed or changed.  Remaining conjuncts: in a root
group whose direct lookup of the id yields a Task, exactly that map entry
is replaced by the result of running the task through the skip-aware
`executeTask` path (with fail-fast propagation of a rejection); a root
group whose lookup yields nothing, or a child group, is left completely
unchanged. -/
theorem c9_runTask_shallow_scan (ptr : Option String) (tid : String) :
    (∀ gs : List (String × NodeList),
      forestGroupChildren (FlowControl.runTaskLoop ptr tid gs).1 =
        forestGroupChildren gs) ∧
    (∀ (gid : String) (cs : NodeList) (rest : List (String × NodeList)) (t : Task),
      NodeList.get cs tid = some (Node.task t) →
      (∀ (t9 : Task) (ptr9 : Option String) (e : JsError),
        FlowControl.executeTask ptr t = (t9, ptr9, Except.error e) →
        FlowControl.runTaskLoop ptr tid ((gid, cs) :: rest) =
          ((gid, NodeList.replaceFirst cs tid (Node.task t9)) :: rest,
           ptr9, Except.error e)) ∧
      (∀ (t9 : Task) (ptr9 : Option String),
        FlowControl.executeTask ptr t = (t9, ptr9, Except.ok ()) →
        FlowControl.runTaskLoop ptr tid ((gid, cs) :: rest) =
          ((gid, NodeList.replaceFirst cs tid (Node.task t9)) ::
             (FlowControl.runTaskLoop ptr9 tid rest).1,
           (FlowControl.runTaskLoop ptr9 tid rest).2.1,
           (FlowControl.runTaskLoop ptr9 tid rest).2.2))) ∧
    (∀ (gid : String) (cs : NodeList) (rest : List (String × NodeList)),
      (∀ t : Task, NodeList.get cs tid ≠ some (Node.task t)) →
      FlowControl.runTaskLoop ptr tid ((gid, cs) :: rest) =
        ((gid, cs) :: (FlowControl.runTaskLoop ptr tid rest).1,
         (FlowControl.runTaskLoop ptr tid rest).2.1,
         (FlowControl.runTaskLoop ptr tid rest).2.2)) := by
  refine ⟨fun gs => forestGroupChildren_runTaskLoop gs ptr tid, ?_, ?_⟩
  · intro gid cs rest t hget
    constructor
    · intro t9 ptr9 e hex
      simp only [FlowControl.runTaskLoop, hget, hex]
    · intro t9 ptr9 hex
      simp only [FlowControl.runTaskLoop, hget, hex]
  · intro gid cs rest hne
    cases hget : NodeList.get cs tid with
    | none =>
      simp only [FlowControl.runTaskLoop, hget]
    | some n =>
      cases n with
      | task t => exact absurd hget (hne t)
      | group gid2 gcs =>
        simp only [FlowControl.runTaskLoop, hget]

/-- C9 witness scenario: a direct Task child with the searched id. -/
def c9TaskA : Task :=
  { id := "A"
    execBeh := fun _ => ExecOutcome.resolve none
    condBeh := fun _ => CondOutcome.resolve true
    execDur := fun _ => 3
    retries := 0
    waitTime := 0
    nextTasks := none
    state := TaskState.not_started
    time := 0
    execCalls := 0
    condCalls := 0 }

/-- C9 witness scenario: a nested group also containing a task with the
searched id "A"; `runTask` must never reach it. -/
def c9Nested : NodeList :=
  NodeList.cons (Node.task (idleTask "A" TaskState.not_started)) NodeList.nil

/-- C9 witness scenario: one root group holding the direct Task child "A"
and a nested group. -/
def c9Roots : List (String × NodeList) :=
  [("g1", NodeList.cons (Node.task c9TaskA)
      (NodeList.cons (Node.group "h" c9Nested) NodeList.nil))]

/-- C9 witness: on the concrete forest, the direct child "A" is executed
and written back while the nested group (and the task with the same id
inside it) is returned verbatim, via `c9_runTask_shallow_scan`. -/
theorem c9_runTask_shallow_scan_witness :
    (NodeList.get (NodeList.cons (Node.task c9TaskA)
        (NodeList.cons (Node.group "h" c9Nested) NodeList.nil)) "A" =
      some (Node.task c9TaskA) ∧
     FlowControl.executeTask none c9TaskA =
      ((Task.run c9TaskA).1, none, Except.ok ())) ∧
    FlowControl.runTaskLoop none "A" c9Roots =
      ([("g1", NodeList.cons (Node.task (Task.run c9TaskA).1)
          (NodeList.cons (Node.group "h" c9Nested) NodeList.nil))],
       none, Except.ok ()) ∧
    forestGroupChildren (FlowControl.runTaskLoop none "A" c9Roots).1 =
      [Node.group "h" c9Nested] := by
  have happ :=
    ((c9_runTask_shallow_scan none "A").2.1 "g1"
      (NodeList.cons (Node.task c9TaskA)
        (NodeList.cons (Node.group "h" c9Nested) NodeList.nil))
      [] c9TaskA rfl).2 (Task.run c9TaskA).1 none rfl
  have hfgc := (c9_runTask_shallow_scan none "A").1 c9Roots
  refine ⟨⟨rfl, rfl⟩, ?_, ?_⟩
  · rw [show c9Roots = [("g1", NodeList.cons (Node.task c9TaskA)
        (NodeList.cons (Node.group "h" c9Nested) NodeList.nil))] from rfl]
    rw [happ]
    rfl
  · rw [hfgc]
    rfl

/-- C4 witness: the derivation rule evaluated on the concrete mixed group,
via `c4_group_state_derivation`. -/
theorem c4_group_state_derivation_witness :
    (serializeTaskGroup "w4" c4InProgressMix).state =
      (if NodeList.anyInProgress c4InProgressMix then TaskState.in_progress
       else if NodeList.allCompleted c4InProgressMix then TaskState.completed
       else TaskState.not_started) :=
  c4_group_state_derivation.1 "w4" c4InProgressMix

/-- C8 witness: the amended time rule evaluated on the concrete nested
group, via `c8_group_time_sums_only_task_children`. -/
theorem c8_group_time_sums_only_task_children_witness :
    (serializeTaskGroup "w8" c8Children).time = codeChildTimeSum c8Children :=
  c8_group_time_sums_only_task_children "w8" c8Children

/-- C10 witness: the empty group evaluated at a concrete id, via
`c10_empty_group_serializes_completed`. -/
theorem c10_empty_group_serializes_completed_witness :
    serializeTaskGroup "w10" NodeList.nil =
      SerializedData.mk "task-group" TaskState.completed 0 (some []) :=
  c10_empty_group_serializes_completed "w10"

end FlowLikeWater
